import Mathlib

/-!
Verification development for the place-finder infrastructure repository.

The repository declares a deployment graph of cloud resources: a container
registry stack, an agent runtime-and-memory stack, and a gateway stack with a
custom OAuth2 credential-provisioning step.  The definitions below are a
shallow embedding of the declarations found in the TypeScript sources
(bin/cdk.ts in two variants, lib/stacks/ecr-stack.ts,
lib/stacks/agentcore-stack.ts, lib/stacks/gateway-stack.ts); the theorems
settle the specified properties of that graph.
-/

/-- The deployment units (CDK stacks) composed by the entry point. -/
inductive StackId
  | ecrStack
  | agentCoreStack
  | gatewayStack
deriving DecidableEq, Repr

/-- Removal policy of a declared resource (aws-cdk-lib RemovalPolicy). -/
inductive RemovalPolicy
  | retain
  | destroy
deriving DecidableEq, Repr

/-- Tag status selector in an ECR lifecycle rule (aws-ecr TagStatus). -/
inductive TagStatus
  | any
  | tagged
  | untagged
deriving DecidableEq, Repr

/-- One ECR lifecycle rule, as configured in ecr-stack.ts. -/
structure LifecycleRule where
  description : String
  maxImageCount : Nat
  rulePriority : Nat
  tagStatus : TagStatus
deriving DecidableEq, Repr

/-- Configuration of the ECR repository resource (ecr-stack.ts lines 15-28). -/
structure EcrRepoConfig where
  repositoryName : String
  removalPolicy : RemovalPolicy
  emptyOnDelete : Bool
  lifecycleRules : List LifecycleRule
  imageScanOnPush : Bool
deriving DecidableEq, Repr

/-- The repository declared by EcrStack: name is the lowercased app name with
a fixed suffix, removal policy RETAIN, emptyOnDelete false, one lifecycle rule
keeping the last 10 images of any tag status (ecr-stack.ts lines 15-28). -/
def ecrRepository (appName : String) : EcrRepoConfig :=
  { repositoryName := appName.toLower ++ "-mcp"
    removalPolicy := RemovalPolicy.retain
    emptyOnDelete := false
    lifecycleRules := [{ description := "Keep last 10 images"
                         maxImageCount := 10
                         rulePriority := 1
                         tagStatus := TagStatus.any }]
    imageScanOnPush := true }

/-- Modelled from the spec: the orchestration engine's stack-teardown effect on
the registry (the engine itself is outside this repository).  A repository
declared with removal policy RETAIN is left in place, images untouched; with
DESTROY it is removed, emptying it first only when emptyOnDelete is set, and a
non-empty repository without emptyOnDelete fails to delete and is kept.
Returns the surviving image list, or none when the repository is removed. -/
def teardownRepository (c : EcrRepoConfig) (images : List String) :
    Option (List String) :=
  match c.removalPolicy with
  | RemovalPolicy.retain => some images
  | RemovalPolicy.destroy =>
      if c.emptyOnDelete then none
      else if images.isEmpty then none else some images

/-- ECR repository name template shared by both entry-point variants
(cdk.ts variant 2 line 59, ecr-stack.ts line 16). -/
def ecrRepoName (appName : String) : String :=
  appName.toLower ++ "-mcp"

/-- Default image URI built from account and region (cdk.ts variant 2
line 71): account, registry host, repository name, and the latest tag. -/
def defaultImageUri (accountId region appName : String) : String :=
  accountId ++ ".dkr.ecr." ++ region ++ ".amazonaws.com/" ++
    ecrRepoName appName ++ ":latest"

/-- Image URI selection (cdk.ts line 24 and variant 2 line 72):
existingImageUri || default.  The JavaScript or-else treats the empty string
as absent, so an empty override also falls back to the default. -/
def imageUri (existingImageUri : Option String)
    (accountId region appName : String) : String :=
  match existingImageUri with
  | none => defaultImageUri accountId region appName
  | some s => if s = "" then defaultImageUri accountId region appName else s

/-- The composed application graph: the chosen artifact reference and the
explicit ordering edges (dependent, dependency) declared by addDependency. -/
structure AppGraph where
  imageUri : String
  edges : List (StackId × StackId)
deriving DecidableEq, Repr

/-- Entry-point variant 1 (bin/cdk.ts): composes EcrStack and AgentCoreStack.
The image URI is the context override or the repository URI with the latest
tag (line 24), and agentCoreStack.addDependency(ecrStack) is called
unconditionally (line 38), whether or not an override was supplied. -/
def composeAppV1 (existingImageUri : Option String)
    (repositoryUri : String) : AppGraph :=
  { imageUri :=
      match existingImageUri with
      | none => repositoryUri ++ ":latest"
      | some s => if s = "" then repositoryUri ++ ":latest" else s
    edges := [(StackId.agentCoreStack, StackId.ecrStack)] }

/-- Entry-point variant 2 (the bin file appended to ecr-stack.ts): composes
EcrStack, AgentCoreStack and GatewayStack.  The default image URI is built
from account and region tokens with no cross-stack reference (line 71), and
no addDependency call is made at all. -/
def composeAppV2 (existingImageUri : Option String)
    (accountId region : String) : AppGraph :=
  { imageUri := imageUri existingImageUri accountId region "placeFinder"
    edges := [] }

/-- Configuration of the Secrets Manager secret (agentcore-stack.ts lines
42-49, identical in both stack variants).  The object value maps field names
to declared initial values. -/
structure SecretConfig where
  secretName : String
  description : String
  secretObjectValue : List (String × String)
deriving DecidableEq, Repr

/-- The Google API key secret placeholder: name derived from the app name and
an empty string as the declared api_key value. -/
def googleApiSecret (appName : String) : SecretConfig :=
  { secretName := appName ++ "/google-api-key"
    description :=
      "Google API key for Places & Weather APIs. Update after deployment."
    secretObjectValue := [("api_key", "")] }

/-- Kinds of memory strategy offered by the agentcore library and used in the
two stack variants. -/
inductive StrategyKind
  | userPreference
  | semantic
  | summarization
deriving DecidableEq, Repr

/-- One named memory strategy with its namespace templates. -/
structure MemoryStrategy where
  kind : StrategyKind
  name : String
  namespaces : List String
deriving DecidableEq, Repr

namespace MemoryStrategy

/-- MemoryStrategy.usingUserPreference from the agentcore library surface. -/
def usingUserPreference (name : String) (namespaces : List String) :
    MemoryStrategy :=
  { kind := StrategyKind.userPreference, name := name, namespaces := namespaces }

/-- MemoryStrategy.usingSemantic from the agentcore library surface. -/
def usingSemantic (name : String) (namespaces : List String) :
    MemoryStrategy :=
  { kind := StrategyKind.semantic, name := name, namespaces := namespaces }

/-- MemoryStrategy.usingSummarization from the agentcore library surface. -/
def usingSummarization (name : String) (namespaces : List String) :
    MemoryStrategy :=
  { kind := StrategyKind.summarization, name := name, namespaces := namespaces }

end MemoryStrategy

/-- Properties of a Memory descriptor as passed to the Memory construct. -/
structure MemoryProps where
  memoryName : String
  description : String
  memoryStrategies : List MemoryStrategy
deriving DecidableEq, Repr

/-- Modelled from the spec: the Memory construct's validation, implemented in
the external agentcore library rather than under src.  Strategy names must be
unique within one memory descriptor; construction of a descriptor containing
two strategies with the same name is rejected (returns none), otherwise the
descriptor is accepted unchanged. -/
def mkMemory (props : MemoryProps) : Option MemoryProps :=
  if (props.memoryStrategies.map (fun s => s.name)).Nodup then some props
  else none

/-- The Memory descriptor of the MCP stack variant (agentcore-stack.ts lines
55-68): user-preference and semantic strategies. -/
def memoryPropsMcp (appName : String) : MemoryProps :=
  { memoryName := appName ++ "_memory"
    description := appName ++
      " long-term memory with user preference and semantic strategies"
    memoryStrategies :=
      [MemoryStrategy.usingUserPreference "user_preference_strategy"
         ["/preferences/{actorId}/"],
       MemoryStrategy.usingSemantic "semantic_strategy"
         ["/facts/{actorId}/"]] }

/-- The Memory descriptor of the HTTP stack variant (src/unnamed/part_000
lines 53-70): user-preference, semantic and summarization strategies. -/
def memoryPropsHttp (appName : String) : MemoryProps :=
  { memoryName := appName ++ "_memory"
    description := appName ++
      " long-term memory with user preference, semantic, and summary strategies"
    memoryStrategies :=
      [MemoryStrategy.usingUserPreference "user_preference_strategy"
         ["/preferences/{actorId}/"],
       MemoryStrategy.usingSemantic "semantic_strategy"
         ["/facts/{actorId}/"],
       MemoryStrategy.usingSummarization "summary_strategy"
         ["/summaries/{sessionId}/"]] }

/-- Resources declared inside the GatewayStack whose creation order is
constrained by explicit dependency declarations. -/
inductive GwNode
  | gatewayRole
  | oauthProviderFn
  | oauthProvider
  | gateway
  | gatewayTarget
deriving DecidableEq, Repr

/-- Explicit ordering edges declared in gateway-stack.ts lines 199-201: the
gateway target depends on the gateway (addDependency), the gateway role and
the OAuth2 credential provider (node.addDependency).  No other resource has an
explicit edge. -/
def gwDeps : GwNode → List GwNode
  | GwNode.gatewayTarget =>
      [GwNode.gateway, GwNode.gatewayRole, GwNode.oauthProvider]
  | _ => []

/-- All declared dependencies of a node are already realized. -/
def depsMet (done : List GwNode) (n : GwNode) : Bool :=
  (gwDeps n).all (fun d => decide (d ∈ done))

/-- A realization trace is valid when every node is realized only after all of
its declared dependencies (the engine serializes across declared edges). -/
def validTrace : List GwNode → List GwNode → Bool
  | _, [] => true
  | done, n :: rest => depsMet done n && validTrace (n :: done) rest

/-- Input parameters of the credential provisioning step (the properties of
the OAuth2CredentialProvider custom resource, gateway-stack.ts lines 115-133).
-/
structure ProviderParams where
  providerName : String
  userPoolId : String
  clientId : String
  region : String
deriving DecidableEq, Repr

/-- Modelled from the spec: the opaque ARN-like handle returned for a
registered credential provider, deterministic in the creation parameters. -/
def providerHandle (p : ProviderParams) : String :=
  "arn:aws:bedrock-agentcore:" ++ p.region ++
    ":token-vault/oauth2credentialprovider/" ++ p.providerName

/-- Modelled from the spec: the create operation of the credential
provisioning step (the oauth2-provider Lambda handler referenced by
gateway-stack.ts but absent from src).  It registers an OAuth2
client-credentials provider; on detecting that a provider with the same name
already exists with identical parameters it adopts the existing handle rather
than failing, while a name collision with different parameters is a remote
validation failure surfaced as a step failure. -/
def createProvider (p : ProviderParams) (st : List ProviderParams) :
    Except String (String × List ProviderParams) :=
  match st.find? (fun q => q.providerName == p.providerName) with
  | none => Except.ok (providerHandle p, p :: st)
  | some q =>
      if q = p then Except.ok (providerHandle q, st)
      else Except.error "provider exists with different parameters"

/-- Modelled from the spec: the delete operation of the credential
provisioning step.  It deregisters the named provider; deleting a provider
that is already absent is treated as success, so repeated teardown attempts
remain safe. -/
def deleteProvider (name : String) (st : List ProviderParams) :
    Except String (List ProviderParams) :=
  match st.find? (fun q => q.providerName == name) with
  | some _ => Except.ok (st.filter (fun q => q.providerName != name))
  | none => Except.ok st

/-- Percent-encoding of one character in the convention used by the endpoint
template of gateway-stack.ts: the colon and the slash, the two reserved
characters appearing in a runtime ARN, are escaped; all other characters are
kept as themselves. -/
def pctEncodeChars (c : Char) : List Char :=
  if c = ':' then ['%', '3', 'A']
  else if c = '/' then ['%', '2', 'F']
  else [c]

/-- Percent-encoding of a character list, applied uniformly to every
character. -/
def pctEncodeL : List Char → List Char
  | [] => []
  | c :: cs => pctEncodeChars c ++ pctEncodeL cs

/-- Percent-encoding of a string, applied uniformly to the whole string. -/
def pctEncode (s : String) : String :=
  String.mk (pctEncodeL s.data)

/-- True when a string contains neither of the reserved characters, so that
it needs no escaping inside a URL path segment of this shape. -/
def rawIdentifier (s : String) : Bool :=
  s.data.all (fun c => !(c == ':' || c == '/'))

/-- The plain (unencoded) runtime ARN whose encoding the endpoint template
embeds in the URL path. -/
def plainRuntimeArn (region accountId runtimeId : String) : String :=
  "arn:aws:bedrock-agentcore:" ++ region ++ ":" ++ accountId ++
    ":runtime/" ++ runtimeId

/-- The encoded ARN as actually constructed by gateway-stack.ts lines
151-159: the literal delimiter pieces are written pre-encoded while the
region, account and runtime identifiers are interpolated verbatim. -/
def encodedArn (region accountId runtimeId : String) : String :=
  "arn%3Aaws%3Abedrock-agentcore%3A" ++ region ++ "%3A" ++ accountId ++
    "%3Aruntime%2F" ++ runtimeId

/-- The gateway target's runtime MCP endpoint URL (gateway-stack.ts lines
161-167). -/
def runtimeEndpoint (region accountId runtimeId : String) : String :=
  "https://bedrock-agentcore." ++ region ++ ".amazonaws.com/runtimes/" ++
    encodedArn region accountId runtimeId ++ "/invocations?qualifier=DEFAULT"

/-- Effect of an IAM policy statement. -/
inductive Effect
  | allow
  | deny
deriving DecidableEq, Repr

/-- One syntactic piece of a resource-ARN pattern as written in the source:
either a literal, or one of the interpolated deployment values.  The
runtimeArn and promptArn pieces stand for interpolated attribute references
that are themselves account- and region-scoped ARNs produced by the engine. -/
inductive ArnPiece
  | lit (s : String)
  | regionTok
  | accountTok
  | userPoolIdTok
  | appNameLowerTok
  | runtimeArnTok
  | promptArnTok
deriving DecidableEq, Repr

/-- A resource pattern is the template of interpolation pieces from which the
source builds the resource string. -/
abbrev ResourcePattern := List ArnPiece

/-- An IAM policy statement as declared in the stacks. -/
structure PolicyStatement where
  sid : String
  effect : Effect
  actions : List String
  resources : List ResourcePattern
deriving DecidableEq, Repr

/-- A resource pattern that is the wildcard-all string. -/
def wildcardAll (r : ResourcePattern) : Bool :=
  decide (r = [ArnPiece.lit "*"])

/-- A resource pattern scoped by account and region: it interpolates the
region and account values directly, or it interpolates an attribute reference
(runtime ARN, prompt ARN) that is itself an account- and region-scoped ARN. -/
def scopedByAccountRegion (r : ResourcePattern) : Bool :=
  (decide (ArnPiece.regionTok ∈ r) && decide (ArnPiece.accountTok ∈ r)) ||
    decide (ArnPiece.runtimeArnTok ∈ r) || decide (ArnPiece.promptArnTok ∈ r)

/-- Modelled from the spec: the classification of IAM actions by whether the
action supports resource-level permissions (has a resource-level ARN format),
taken from the service authorization documentation of the external provider
for the actions appearing in this repository; actions not listed here are
conservatively classified as having no resource-level ARN format. -/
def hasResourceLevelArnFormat (a : String) : Bool :=
  a ∈ ["bedrock-agentcore:InvokeRuntime",
       "bedrock-agentcore:InvokeAgentRuntime",
       "cognito-idp:DescribeUserPoolClient",
       "secretsmanager:CreateSecret",
       "secretsmanager:DeleteSecret",
       "secretsmanager:PutSecretValue",
       "secretsmanager:GetSecretValue",
       "ecr:BatchGetImage",
       "ecr:GetDownloadUrlForLayer",
       "bedrock:GetPrompt",
       "bedrock:UpdatePrompt",
       "bedrock:CreatePromptVersion",
       "bedrock:DeletePrompt",
       "s3vectors:QueryVectors",
       "s3vectors:PutVectors",
       "s3vectors:GetVectors",
       "s3vectors:DeleteVectors",
       "logs:PutLogEvents",
       "logs:CreateLogStream",
       "logs:CreateLogGroup",
       "logs:DescribeLogStreams",
       "logs:PutDeliverySource",
       "logs:PutDeliveryDestination",
       "logs:CreateDelivery",
       "logs:GetDeliverySource",
       "logs:GetDeliveryDestination",
       "logs:GetDelivery",
       "logs:DeleteDeliverySource",
       "logs:DeleteDeliveryDestination",
       "logs:DeleteDelivery"]

/-- The InvokeRuntime statement on the gateway role (gateway-stack.ts lines
53-63). -/
def invokeRuntimeStatement : PolicyStatement :=
  { sid := "InvokeRuntime"
    effect := Effect.allow
    actions := ["bedrock-agentcore:InvokeRuntime",
                "bedrock-agentcore:InvokeAgentRuntime"]
    resources := [[ArnPiece.runtimeArnTok],
                  [ArnPiece.runtimeArnTok, ArnPiece.lit "/*"]] }

/-- The CognitoDescribeClient statement on the provisioning function role
(gateway-stack.ts lines 85-94). -/
def cognitoDescribeClientStatement : PolicyStatement :=
  { sid := "CognitoDescribeClient"
    effect := Effect.allow
    actions := ["cognito-idp:DescribeUserPoolClient"]
    resources := [[ArnPiece.lit "arn:aws:cognito-idp:", ArnPiece.regionTok,
                   ArnPiece.lit ":", ArnPiece.accountTok,
                   ArnPiece.lit ":userpool/", ArnPiece.userPoolIdTok]] }

/-- The AgentCoreOAuth2Provider statement on the provisioning function role
(gateway-stack.ts lines 95-113): a wildcard-all resource over a mixed action
set that includes secretsmanager write actions. -/
def agentCoreOAuth2ProviderStatement : PolicyStatement :=
  { sid := "AgentCoreOAuth2Provider"
    effect := Effect.allow
    actions := ["bedrock-agentcore:CreateOauth2CredentialProvider",
                "bedrock-agentcore:DeleteOauth2CredentialProvider",
                "bedrock-agentcore:GetOauth2CredentialProvider",
                "bedrock-agentcore:CreateTokenVault",
                "bedrock-agentcore:GetTokenVault",
                "secretsmanager:CreateSecret",
                "secretsmanager:DeleteSecret",
                "secretsmanager:PutSecretValue",
                "sso:*",
                "acps:*"]
    resources := [[ArnPiece.lit "*"]] }

/-- The ECRPullImage statement on the runtime role (agentcore-stack.ts lines
170-182). -/
def ecrPullImageStatement : PolicyStatement :=
  { sid := "ECRPullImage"
    effect := Effect.allow
    actions := ["ecr:BatchGetImage", "ecr:GetDownloadUrlForLayer"]
    resources := [[ArnPiece.lit "arn:aws:ecr:", ArnPiece.regionTok,
                   ArnPiece.lit ":", ArnPiece.accountTok,
                   ArnPiece.lit ":repository/", ArnPiece.appNameLowerTok,
                   ArnPiece.lit "-*"]] }

/-- The ECRAuth statement on the runtime role (agentcore-stack.ts lines
183-190): wildcard-all resource for the one action that has no resource-level
ARN format. -/
def ecrAuthStatement : PolicyStatement :=
  { sid := "ECRAuth"
    effect := Effect.allow
    actions := ["ecr:GetAuthorizationToken"]
    resources := [[ArnPiece.lit "*"]] }

/-- The AgentCoreMemoryAccess statement on the runtime role
(agentcore-stack.ts lines 196-205). -/
def agentCoreMemoryAccessStatement : PolicyStatement :=
  { sid := "AgentCoreMemoryAccess"
    effect := Effect.allow
    actions := ["bedrock-agentcore:*"]
    resources := [[ArnPiece.lit "arn:aws:bedrock-agentcore:",
                   ArnPiece.regionTok, ArnPiece.lit ":", ArnPiece.accountTok,
                   ArnPiece.lit ":memory/*"]] }

/-- The BedrockPromptManagement statement on the runtime role
(agentcore-stack.ts lines 208-224). -/
def bedrockPromptManagementStatement : PolicyStatement :=
  { sid := "BedrockPromptManagement"
    effect := Effect.allow
    actions := ["bedrock:GetPrompt", "bedrock:UpdatePrompt",
                "bedrock:CreatePromptVersion", "bedrock:ListPrompts",
                "bedrock:DeletePrompt"]
    resources := [[ArnPiece.promptArnTok],
                  [ArnPiece.promptArnTok, ArnPiece.lit ":*"]] }

/-- The S3VectorStoreAccess statement on the runtime role (agentcore-stack.ts
lines 227-239). -/
def s3VectorStoreAccessStatement : PolicyStatement :=
  { sid := "S3VectorStoreAccess"
    effect := Effect.allow
    actions := ["s3vectors:QueryVectors", "s3vectors:PutVectors",
                "s3vectors:GetVectors", "s3vectors:DeleteVectors"]
    resources := [[ArnPiece.lit "arn:aws:s3vectors:", ArnPiece.regionTok,
                   ArnPiece.lit ":", ArnPiece.accountTok,
                   ArnPiece.lit ":bucket/*"]] }

/-- The OTLPCloudWatchExport statement on the runtime role
(agentcore-stack.ts lines 242-258). -/
def otlpCloudWatchExportStatement : PolicyStatement :=
  { sid := "OTLPCloudWatchExport"
    effect := Effect.allow
    actions := ["logs:PutLogEvents", "logs:CreateLogStream",
                "logs:CreateLogGroup", "logs:DescribeLogStreams"]
    resources :=
      [[ArnPiece.lit "arn:aws:logs:", ArnPiece.regionTok, ArnPiece.lit ":",
        ArnPiece.accountTok,
        ArnPiece.lit ":log-group:/aws/vendedlogs/bedrock-agentcore/*"],
       [ArnPiece.lit "arn:aws:logs:", ArnPiece.regionTok, ArnPiece.lit ":",
        ArnPiece.accountTok,
        ArnPiece.lit
          ":log-group:/aws/vendedlogs/bedrock-agentcore/*:log-stream:*"],
       [ArnPiece.lit "arn:aws:logs:", ArnPiece.regionTok, ArnPiece.lit ":",
        ArnPiece.accountTok, ArnPiece.lit ":log-group:aws/spans:*"]] }

/-- The CloudWatchLogsDelivery statement on the runtime role
(agentcore-stack.ts lines 261-278): a wildcard-all resource over delivery
actions. -/
def cloudWatchLogsDeliveryStatement : PolicyStatement :=
  { sid := "CloudWatchLogsDelivery"
    effect := Effect.allow
    actions := ["logs:PutDeliverySource", "logs:PutDeliveryDestination",
                "logs:CreateDelivery", "logs:GetDeliverySource",
                "logs:GetDeliveryDestination", "logs:GetDelivery",
                "logs:DeleteDeliverySource", "logs:DeleteDeliveryDestination",
                "logs:DeleteDelivery"]
    resources := [[ArnPiece.lit "*"]] }

/-- All IAM policy statements attached by the composed units, in declaration
order: the gateway stack statements followed by the agentcore stack
statements (the HTTP variant declares the same statements minus
BedrockPromptManagement). -/
def allPolicyStatements : List PolicyStatement :=
  [invokeRuntimeStatement, cognitoDescribeClientStatement,
   agentCoreOAuth2ProviderStatement, ecrPullImageStatement, ecrAuthStatement,
   agentCoreMemoryAccessStatement, bedrockPromptManagementStatement,
   s3VectorStoreAccessStatement, otlpCloudWatchExportStatement,
   cloudWatchLogsDeliveryStatement]

/-- The scoping discipline claimed by the spec for one statement: wildcard-all
appears only when no action of the statement has a resource-level ARN format,
and whenever some action has one, every resource pattern of the statement is
scoped by account and region. -/
def respectsScoping (s : PolicyStatement) : Bool :=
  (s.resources.all fun r =>
    !(wildcardAll r) || s.actions.all fun a => !(hasResourceLevelArnFormat a))
  && (!(s.actions.any hasResourceLevelArnFormat)
      || s.resources.all scopedByAccountRegion)

/-- The registry host of the default artifact reference, as the spec words
it: the in-account container registry endpoint for a region. -/
def registryHost (region : String) : String :=
  "dkr.ecr." ++ region ++ ".amazonaws.com"

/-- Concrete parameters used to exercise the credential provisioning step:
the provider name template of gateway-stack.ts line 115 applied to the app
name of the entry point, with sample pool, client and region values. -/
def sampleProviderParams : ProviderParams :=
  { providerName := "placeFinder-cognito-oauth"
    userPoolId := "pool123"
    clientId := "client456"
    region := "us-east-1" }

/-- A memory descriptor with two strategies of the same name, used to
exercise the uniqueness validation. -/
def memoryPropsDup : MemoryProps :=
  { memoryName := "placeFinder_memory"
    description := "duplicate strategy names"
    memoryStrategies :=
      [MemoryStrategy.usingSemantic "semantic_strategy" ["/facts/{actorId}/"],
       MemoryStrategy.usingSemantic "semantic_strategy" ["/dup/{actorId}/"]] }

/-! Helper lemmas. -/

/-- Appending strings appends their character data. -/
theorem string_data_append (a b : String) :
    (a ++ b).data = a.data ++ b.data := by
  cases a; cases b; rfl

/-- Strings with equal character data are equal. -/
theorem string_ext_of_data (a b : String) (h : a.data = b.data) : a = b := by
  cases a; cases b; exact congrArg String.mk h

/-- Percent-encoding distributes over list concatenation. -/
theorem pctEncodeL_append (l1 l2 : List Char) :
    pctEncodeL (l1 ++ l2) = pctEncodeL l1 ++ pctEncodeL l2 := by
  induction l1 with
  | nil => rfl
  | cons c cs ih => simp [pctEncodeL, ih]

/-- Percent-encoding leaves a reserved-character-free list unchanged. -/
theorem pctEncodeL_raw (l : List Char)
    (h : l.all (fun c => !(c == ':' || c == '/')) = true) :
    pctEncodeL l = l := by
  induction l with
  | nil => rfl
  | cons c cs ih =>
      simp only [List.all_cons, Bool.and_eq_true] at h
      have hc := h.1
      simp only [Bool.not_eq_true', Bool.or_eq_false_iff,
        beq_eq_false_iff_ne] at hc
      simp [pctEncodeL, pctEncodeChars, hc.1, hc.2, ih h.2]

/-- In a valid realization trace, every declared dependency of a node is
realized before the node: it is either already done or earlier in the trace.
-/
theorem validTrace_deps_before (n d : GwNode) (hd : d ∈ gwDeps n) :
    ∀ (pre done post : List GwNode),
      validTrace done (pre ++ n :: post) = true → d ∈ done ∨ d ∈ pre := by
  intro pre
  induction pre with
  | nil =>
      intro done post h
      simp only [List.nil_append, validTrace, Bool.and_eq_true] at h
      left
      have hm := h.1
      simp only [depsMet, List.all_eq_true, decide_eq_true_eq] at hm
      exact hm d hd
  | cons a pre ih =>
      intro done post h
      simp only [List.cons_append, validTrace, Bool.and_eq_true] at h
      rcases ih (a :: done) post h.2 with hdone | hpre
      · rcases List.mem_cons.mp hdone with h1 | h2
        · right
          exact h1 ▸ List.mem_cons_self a pre
        · left
          exact h2
      · right
        exact List.mem_cons_of_mem a hpre

/-- After filtering a provider name out of the store, no provider of that
name can be found. -/
theorem find?_filter_name_none (name : String) (st : List ProviderParams) :
    (st.filter (fun q => q.providerName != name)).find?
      (fun q => q.providerName == name) = none := by
  rw [List.find?_eq_none]
  intro q hq
  have hmem := List.of_mem_filter hq
  simp only [bne_iff_ne, ne_eq] at hmem
  simp [hmem]

/-- Encoding one character never shrinks it. -/
theorem pctEncodeChars_length_ge (c : Char) :
    1 ≤ (pctEncodeChars c).length := by
  unfold pctEncodeChars
  split
  · simp
  · split <;> simp

/-- Encoding a reserved character expands it to three characters. -/
theorem pctEncodeChars_length_of_reserved (c : Char)
    (h : (c == ':' || c == '/') = true) :
    (pctEncodeChars c).length = 3 := by
  unfold pctEncodeChars
  rcases Bool.or_eq_true_iff.mp h with h1 | h1
  · rw [if_pos (beq_iff_eq.mp h1)]
    rfl
  · by_cases h2 : c = ':'
    · rw [if_pos h2]
      rfl
    · rw [if_neg h2, if_pos (beq_iff_eq.mp h1)]
      rfl

/-- Percent-encoding never shrinks a character list. -/
theorem pctEncodeL_length_ge (l : List Char) :
    l.length ≤ (pctEncodeL l).length := by
  induction l with
  | nil => simp [pctEncodeL]
  | cons c cs ih =>
      simp only [pctEncodeL, List.length_append, List.length_cons]
      have hc := pctEncodeChars_length_ge c
      omega

/-- Percent-encoding strictly lengthens any character list containing a
reserved character. -/
theorem pctEncodeL_length_gt (l : List Char)
    (h : l.all (fun c => !(c == ':' || c == '/')) = false) :
    l.length < (pctEncodeL l).length := by
  induction l with
  | nil => simp at h
  | cons c cs ih =>
      rw [List.all_cons] at h
      simp only [pctEncodeL, List.length_append, List.length_cons]
      by_cases hres : (c == ':' || c == '/') = true
      · have h3 := pctEncodeChars_length_of_reserved c hres
        have hge := pctEncodeL_length_ge cs
        omega
      · have hb : (c == ':' || c == '/') = false := Bool.eq_false_iff.mpr hres
        rw [hb] at h
        simp only [Bool.not_false, Bool.true_and] at h
        have hc1 := pctEncodeChars_length_ge c
        have hlt := ih h
        omega

/-- When every interpolated identifier is reserved-character-free, the path
segment built by the endpoint template equals the uniform percent-encoding of
the runtime ARN. -/
theorem encodedArn_eq_pctEncode_of_raw (region accountId runtimeId : String)
    (h1 : rawIdentifier region = true) (h2 : rawIdentifier accountId = true)
    (h3 : rawIdentifier runtimeId = true) :
    encodedArn region accountId runtimeId =
      pctEncode (plainRuntimeArn region accountId runtimeId) := by
  unfold rawIdentifier at h1 h2 h3
  apply string_ext_of_data
  simp only [encodedArn, pctEncode, plainRuntimeArn, string_data_append,
    pctEncodeL_append, pctEncodeL_raw region.data h1,
    pctEncodeL_raw accountId.data h2, pctEncodeL_raw runtimeId.data h3]
  have e1 : pctEncodeL "arn:aws:bedrock-agentcore:".data =
      "arn%3Aaws%3Abedrock-agentcore%3A".data := by decide
  have e2 : pctEncodeL ":".data = "%3A".data := by decide
  have e3 : pctEncodeL ":runtime/".data = "%3Aruntime%2F".data := by decide
  simp [e1, e2, e3]

/-- Conversely, when the path segment built by the endpoint template equals
the uniform percent-encoding of the runtime ARN, every interpolated
identifier is reserved-character-free: a reserved character in any of them
makes the uniform encoding strictly longer than the verbatim embedding. -/
theorem raw_of_encodedArn_eq_pctEncode (region accountId runtimeId : String)
    (heq : encodedArn region accountId runtimeId =
      pctEncode (plainRuntimeArn region accountId runtimeId)) :
    rawIdentifier region = true ∧ rawIdentifier accountId = true ∧
      rawIdentifier runtimeId = true := by
  have hl := congrArg (fun s => s.data.length) heq
  simp only [encodedArn, pctEncode, plainRuntimeArn, string_data_append,
    pctEncodeL_append, List.length_append] at hl
  have c1 : "arn%3Aaws%3Abedrock-agentcore%3A".data.length = 32 := by decide
  have c2 : "%3A".data.length = 3 := by decide
  have c3 : "%3Aruntime%2F".data.length = 13 := by decide
  have d1 : (pctEncodeL "arn:aws:bedrock-agentcore:".data).length = 32 := by
    decide
  have d2 : (pctEncodeL ":".data).length = 3 := by decide
  have d3 : (pctEncodeL ":runtime/".data).length = 13 := by decide
  rw [c1, c2, c3, d1, d2, d3] at hl
  have gr := pctEncodeL_length_ge region.data
  have ga := pctEncodeL_length_ge accountId.data
  have gi := pctEncodeL_length_ge runtimeId.data
  refine ⟨?_, ?_, ?_⟩
  · by_contra hc
    have hlt := pctEncodeL_length_gt region.data
      (by simpa [rawIdentifier, Bool.not_eq_true] using hc)
    omega
  · by_contra hc
    have hlt := pctEncodeL_length_gt accountId.data
      (by simpa [rawIdentifier, Bool.not_eq_true] using hc)
    omega
  · by_contra hc
    have hlt := pctEncodeL_length_gt runtimeId.data
      (by simpa [rawIdentifier, Bool.not_eq_true] using hc)
    omega

/-! Claim theorems. -/

/-- Claim C1, counterexample: in entry-point variant 1, a deployment with an
externally supplied artifact reference still has the ordering edge from the
Registry Unit to the Runtime-and-Memory Unit, contradicting the claim that no
such edge exists in that case. -/
theorem C1_counterexample :
    (StackId.agentCoreStack, StackId.ecrStack) ∈
      (composeAppV1
        (some "123456789012.dkr.ecr.us-east-1.amazonaws.com/custom:1")
        "123456789012.dkr.ecr.us-east-1.amazonaws.com/placefinder-mcp").edges
    ∧ some "123456789012.dkr.ecr.us-east-1.amazonaws.com/custom:1" ≠
        (none : Option String) := by
  constructor
  · simp [composeAppV1]
  · simp

/-- Claim C1, amended: the presence of the ordering edge from the Registry
Unit to the Runtime-and-Memory Unit does not depend on whether an external
artifact reference is supplied — entry-point variant 1 declares it
unconditionally, and entry-point variant 2 never declares it. -/
theorem C1_edge_independent_of_override (ext : Option String)
    (repositoryUri accountId region : String) :
    (StackId.agentCoreStack, StackId.ecrStack) ∈
      (composeAppV1 ext repositoryUri).edges ∧
    (StackId.agentCoreStack, StackId.ecrStack) ∉
      (composeAppV2 ext accountId region).edges := by
  constructor
  · simp [composeAppV1]
  · simp [composeAppV2]

/-- Claim C2: the gateway target carries explicit ordering edges on the
gateway, the gateway IAM role and the credential provisioning step, and in
every valid realization trace the target is realized only after all three. -/
theorem C2_gateway_target_ordering (pre post : List GwNode)
    (h : validTrace [] (pre ++ GwNode.gatewayTarget :: post) = true) :
    (GwNode.gateway ∈ gwDeps GwNode.gatewayTarget ∧
     GwNode.gatewayRole ∈ gwDeps GwNode.gatewayTarget ∧
     GwNode.oauthProvider ∈ gwDeps GwNode.gatewayTarget) ∧
    GwNode.gateway ∈ pre ∧ GwNode.gatewayRole ∈ pre ∧
    GwNode.oauthProvider ∈ pre := by
  refine ⟨by decide, ?_, ?_, ?_⟩
  · rcases validTrace_deps_before GwNode.gatewayTarget GwNode.gateway
      (by decide) pre [] post h with h0 | h1
    · exact absurd h0 (List.not_mem_nil _)
    · exact h1
  · rcases validTrace_deps_before GwNode.gatewayTarget GwNode.gatewayRole
      (by decide) pre [] post h with h0 | h1
    · exact absurd h0 (List.not_mem_nil _)
    · exact h1
  · rcases validTrace_deps_before GwNode.gatewayTarget GwNode.oauthProvider
      (by decide) pre [] post h with h0 | h1
    · exact absurd h0 (List.not_mem_nil _)
    · exact h1

/-- Claim C2 witness: a concrete valid trace realizing role, function,
provider and gateway before the target, in which all three prerequisites
indeed occur before the target. -/
theorem C2_witness :
    validTrace []
      ([GwNode.gatewayRole, GwNode.oauthProviderFn, GwNode.oauthProvider,
        GwNode.gateway] ++ GwNode.gatewayTarget :: []) = true ∧
    (GwNode.gateway ∈
        [GwNode.gatewayRole, GwNode.oauthProviderFn, GwNode.oauthProvider,
         GwNode.gateway] ∧
     GwNode.gatewayRole ∈
        [GwNode.gatewayRole, GwNode.oauthProviderFn, GwNode.oauthProvider,
         GwNode.gateway] ∧
     GwNode.oauthProvider ∈
        [GwNode.gatewayRole, GwNode.oauthProviderFn, GwNode.oauthProvider,
         GwNode.gateway]) :=
  ⟨by decide,
   (C2_gateway_target_ordering
      [GwNode.gatewayRole, GwNode.oauthProviderFn, GwNode.oauthProvider,
       GwNode.gateway] [] (by decide)).2⟩

/-- Claim C3: the credential provisioning step's create is idempotent — when
a create succeeds, repeating it with identical parameters returns the same
handle and the same store without error. -/
theorem C3_create_idempotent (p : ProviderParams) (st : List ProviderParams)
    (res : String × List ProviderParams)
    (h : createProvider p st = Except.ok res) :
    createProvider p res.2 = Except.ok res := by
  unfold createProvider at h
  split at h
  next hf =>
    rw [Except.ok.injEq] at h
    subst h
    show createProvider p (p :: st) = Except.ok (providerHandle p, p :: st)
    unfold createProvider
    rw [List.find?_cons_of_pos _ (by simp)]
    simp
  next q hf =>
    split at h
    next hq =>
      rw [Except.ok.injEq] at h
      subst h
      show createProvider p st = Except.ok (providerHandle q, st)
      unfold createProvider
      rw [hf]
      simp [hq]
    next hq =>
      exact absurd h (by simp)

/-- Claim C3 witness: creating the sample provider in an empty store yields
its handle, and creating it again yields the identical handle and store. -/
theorem C3_witness :
    createProvider sampleProviderParams [] =
      Except.ok (providerHandle sampleProviderParams,
                 [sampleProviderParams]) ∧
    createProvider sampleProviderParams [sampleProviderParams] =
      Except.ok (providerHandle sampleProviderParams,
                 [sampleProviderParams]) :=
  ⟨rfl,
   C3_create_idempotent sampleProviderParams []
     (providerHandle sampleProviderParams, [sampleProviderParams]) rfl⟩

/-- Claim C4: the credential provisioning step's delete tolerates an
already-deleted provider — after any successful delete, deleting the same
name again succeeds with the store unchanged, and a delete finding no
provider succeeds without modifying the store. -/
theorem C4_delete_tolerates_already_deleted (name : String)
    (st st1 : List ProviderParams)
    (h : deleteProvider name st = Except.ok st1) :
    deleteProvider name st1 = Except.ok st1 ∧
    (st.find? (fun q => q.providerName == name) = none → st1 = st) := by
  unfold deleteProvider at h
  split at h
  next q hf =>
    rw [Except.ok.injEq] at h
    subst h
    constructor
    · show deleteProvider name (st.filter fun q => q.providerName != name) =
        Except.ok (st.filter fun q => q.providerName != name)
      unfold deleteProvider
      rw [find?_filter_name_none]
    · intro hnone
      exact absurd hnone (by simp [hf])
  next hf =>
    rw [Except.ok.injEq] at h
    subst h
    constructor
    · show deleteProvider name st = Except.ok st
      unfold deleteProvider
      rw [hf]
    · intro _
      rfl

/-- Claim C4 witness: deleting the sample provider from an empty (already
deleted) store succeeds and leaves the store empty. -/
theorem C4_witness :
    deleteProvider "placeFinder-cognito-oauth"
      ([] : List ProviderParams) = Except.ok [] :=
  (C4_delete_tolerates_already_deleted "placeFinder-cognito-oauth" [] []
    rfl).1

/-- Claim C5: with no external artifact reference supplied, the computed
default artifact reference is the account, the registry host for the region,
and the lowercased application name with the mcp suffix and the latest tag —
the app name is lowercased exactly once and not otherwise mutated. -/
theorem C5_default_artifact_reference (accountId region appName : String) :
    imageUri none accountId region appName =
      accountId ++ "." ++ registryHost region ++ "/" ++ appName.toLower ++
        "-mcp:latest" := by
  apply string_ext_of_data
  simp [imageUri, defaultImageUri, ecrRepoName, registryHost,
    string_data_append]

/-- Claim C6, counterexample: the endpoint template does not percent-encode
the interpolated runtime identifier — for a runtime identifier containing a
reserved character, the constructed path segment differs from the uniform
percent-encoding of the runtime ARN. -/
theorem C6_counterexample :
    encodedArn "us-east-1" "123456789012" "runtime/extra" ≠
      pctEncode (plainRuntimeArn "us-east-1" "123456789012" "runtime/extra")
    := by decide

/-- Claim C6, amended: only the constant ARN delimiters of the path segment
are written percent-encoded, while the interpolated region, account and
runtime identifiers are embedded verbatim; consequently the whole path
segment equals the uniform percent-encoding of the runtime ARN exactly when
those identifiers contain no reserved character, and under that condition
the endpoint URL embeds the uniformly encoded ARN. -/
theorem C6_encoding_uniform_iff_reserved_free
    (region accountId runtimeId : String) :
    (encodedArn region accountId runtimeId =
       pctEncode (plainRuntimeArn region accountId runtimeId) ↔
     (rawIdentifier region = true ∧ rawIdentifier accountId = true ∧
      rawIdentifier runtimeId = true)) ∧
    (rawIdentifier region = true → rawIdentifier accountId = true →
     rawIdentifier runtimeId = true →
     runtimeEndpoint region accountId runtimeId =
       "https://bedrock-agentcore." ++ region ++ ".amazonaws.com/runtimes/" ++
         pctEncode (plainRuntimeArn region accountId runtimeId) ++
         "/invocations?qualifier=DEFAULT") := by
  constructor
  · constructor
    · exact raw_of_encodedArn_eq_pctEncode region accountId runtimeId
    · intro h
      exact encodedArn_eq_pctEncode_of_raw region accountId runtimeId
        h.1 h.2.1 h.2.2
  · intro h1 h2 h3
    rw [runtimeEndpoint,
      encodedArn_eq_pctEncode_of_raw region accountId runtimeId h1 h2 h3]

/-- Claim C6 witness: for concrete reserved-free region, account and runtime
identifiers, the constructed path segment equals the uniform encoding of the
runtime ARN; for a concrete runtime identifier containing a slash, it does
not. -/
theorem C6_witness :
    rawIdentifier "us-east-1" = true ∧
    rawIdentifier "123456789012" = true ∧
    rawIdentifier "placeFinder_mcp-AbCdEfGhIj" = true ∧
    encodedArn "us-east-1" "123456789012" "placeFinder_mcp-AbCdEfGhIj" =
      pctEncode
        (plainRuntimeArn "us-east-1" "123456789012"
          "placeFinder_mcp-AbCdEfGhIj") ∧
    rawIdentifier "runtime/extra" = false ∧
    encodedArn "us-east-1" "123456789012" "runtime/extra" ≠
      pctEncode (plainRuntimeArn "us-east-1" "123456789012" "runtime/extra")
    :=
  ⟨by decide, by decide, by decide,
   (C6_encoding_uniform_iff_reserved_free "us-east-1" "123456789012"
      "placeFinder_mcp-AbCdEfGhIj").1.mpr ⟨by decide, by decide, by decide⟩,
   by decide,
   fun hcontra =>
     absurd
       ((C6_encoding_uniform_iff_reserved_free "us-east-1" "123456789012"
          "runtime/extra").1.mp hcontra).2.2
       (by decide)⟩

/-- Claim C7: the strategy names of both declared memory descriptors are
pairwise distinct and their construction is accepted, while any descriptor
holding two strategies of the same name at distinct positions is rejected. -/
theorem C7_memory_strategy_names_unique (appName : String)
    (props : MemoryProps)
    (i j : Fin (props.memoryStrategies.map (fun s => s.name)).length)
    (hij : i ≠ j)
    (hdup : (props.memoryStrategies.map (fun s => s.name)).get i =
            (props.memoryStrategies.map (fun s => s.name)).get j) :
    ((memoryPropsMcp appName).memoryStrategies.map
        (fun s => s.name)).Nodup ∧
    ((memoryPropsHttp appName).memoryStrategies.map
        (fun s => s.name)).Nodup ∧
    mkMemory (memoryPropsMcp appName) = some (memoryPropsMcp appName) ∧
    mkMemory (memoryPropsHttp appName) = some (memoryPropsHttp appName) ∧
    mkMemory props = none := by
  have hmap1 : (memoryPropsMcp appName).memoryStrategies.map
      (fun s => s.name) = ["user_preference_strategy", "semantic_strategy"]
    := rfl
  have hmap2 : (memoryPropsHttp appName).memoryStrategies.map
      (fun s => s.name) =
      ["user_preference_strategy", "semantic_strategy", "summary_strategy"]
    := rfl
  have h1 : ((memoryPropsMcp appName).memoryStrategies.map
      (fun s => s.name)).Nodup := by
    rw [hmap1]
    decide
  have h2 : ((memoryPropsHttp appName).memoryStrategies.map
      (fun s => s.name)).Nodup := by
    rw [hmap2]
    decide
  refine ⟨h1, h2, ?_, ?_, ?_⟩
  · unfold mkMemory
    rw [if_pos h1]
  · unfold mkMemory
    rw [if_pos h2]
  · unfold mkMemory
    rw [if_neg]
    intro hnd
    exact hij (hnd.get_inj_iff.mp hdup)

/-- Claim C7 witness: the MCP descriptor is accepted while a concrete
descriptor with a duplicated strategy name is rejected. -/
theorem C7_witness :
    mkMemory (memoryPropsMcp "placeFinder") =
      some (memoryPropsMcp "placeFinder") ∧
    mkMemory memoryPropsDup = none :=
  have h := C7_memory_strategy_names_unique "placeFinder" memoryPropsDup
    ⟨0, by decide⟩ ⟨1, by decide⟩ (by decide) (by decide)
  ⟨h.2.2.1, h.2.2.2.2⟩

/-- Claim C8, counterexample: the AgentCoreOAuth2Provider statement attaches
the wildcard-all resource while its action set contains
secretsmanager:PutSecretValue, an action with a resource-level ARN format, so
not every statement respects the claimed scoping discipline. -/
theorem C8_counterexample :
    allPolicyStatements.all respectsScoping = false ∧
    agentCoreOAuth2ProviderStatement ∈ allPolicyStatements ∧
    agentCoreOAuth2ProviderStatement.resources = [[ArnPiece.lit "*"]] ∧
    "secretsmanager:PutSecretValue" ∈
      agentCoreOAuth2ProviderStatement.actions ∧
    hasResourceLevelArnFormat "secretsmanager:PutSecretValue" = true ∧
    respectsScoping agentCoreOAuth2ProviderStatement = false := by
  refine ⟨by decide, by decide, rfl, by decide, by decide, by decide⟩

/-- Claim C8, amended: every non-wildcard resource pattern is scoped by
account and region (directly or through an account- and region-scoped ARN
attribute); wildcard-all appears in exactly three statements — ECRAuth, whose
sole action has no resource-level ARN format and which therefore respects the
discipline, and AgentCoreOAuth2Provider and CloudWatchLogsDelivery, both of
which do contain actions with resource-level ARN formats. -/
theorem C8_scoping_amended :
    ((allPolicyStatements.filter fun s => s.resources.any wildcardAll).map
        fun s => s.sid) =
      ["AgentCoreOAuth2Provider", "ECRAuth", "CloudWatchLogsDelivery"] ∧
    (allPolicyStatements.all fun s =>
      s.resources.all fun r => wildcardAll r || scopedByAccountRegion r)
      = true ∧
    respectsScoping ecrAuthStatement = true ∧
    agentCoreOAuth2ProviderStatement.actions.any hasResourceLevelArnFormat
      = true ∧
    cloudWatchLogsDeliveryStatement.actions.any hasResourceLevelArnFormat
      = true := by
  refine ⟨by decide, by decide, by decide, by decide, by decide⟩

/-- Claim C9: for every application name the secret placeholder is declared
with the name derived from the app name, the api_key field declared as the
empty string, and no declared field value holding a real secret. -/
theorem C9_secret_placeholder (appName : String) :
    (googleApiSecret appName).secretName = appName ++ "/google-api-key" ∧
    (googleApiSecret appName).secretObjectValue = [("api_key", "")] ∧
    ((googleApiSecret appName).secretObjectValue.all
      fun kv => kv.2 == "") = true := by
  refine ⟨rfl, rfl, rfl⟩

/-- Claim C10: the registry repository is declared with removal policy
RETAIN, emptyOnDelete false, and exactly the one lifecycle rule keeping the
last 10 images of any tag status; tearing the stack down therefore leaves the
repository and all stored images unchanged. -/
theorem C10_registry_retention (appName : String) (images : List String) :
    (ecrRepository appName).removalPolicy = RemovalPolicy.retain ∧
    (ecrRepository appName).emptyOnDelete = false ∧
    (ecrRepository appName).lifecycleRules =
      [{ description := "Keep last 10 images", maxImageCount := 10,
         rulePriority := 1, tagStatus := TagStatus.any }] ∧
    teardownRepository (ecrRepository appName) images = some images := by
  refine ⟨rfl, rfl, rfl, rfl⟩
